import Mathlib

/-!
Shallow embedding of the AI Tailor measurement pipeline
(`src/ai_tailor/ai_tailor.py`, class `AITailorSystem` and the `/save` route).

Modelling conventions:
* Python floats are modelled by exact arithmetic: normalized landmark
  coordinates and the calibration scale are rationals, Euclidean distances
  (via `np.sqrt`) live in `ℝ`.
* The mutable `AITailorSystem` object is a `SystemState` record; each method
  takes the state and returns the updated state together with an
  `Except PyError` result.  A raised-and-unhandled Python exception is the
  `Except.error` case; the state component carries every mutation performed
  before the raise, exactly as object attributes survive an exception.
* `datetime.now()` and the success of the file write are external effects,
  passed in as explicit arguments (`now : ℕ`, `write_ok : Bool`).
* The JSON file written by `save_measurements` is modelled structurally: the
  file system maps a file name to the list of records dumped into it.
-/

namespace AITailor

/-- One detected pose landmark: normalized coordinates in `[0,1]`,
as delivered by the external detector (`results.pose_landmarks[i]`). -/
structure Landmark where
  x : ℚ
  y : ℚ
deriving DecidableEq

/-- The detector output indexed by MediaPipe landmark number; `none` at an
index models a subscript that raises (missing landmark). -/
abbrev PoseLandmarks : Type := ℕ → Option Landmark

/-- The Python exceptions that can escape the embedded methods. -/
inductive PyError where
  | zeroDivisionError
  | ioError
deriving DecidableEq

/-- The measurements dict, in insertion order: name to value in cm. -/
abbrev Measurements : Type := List (String × ℝ)

/-- One element of a per-user history:
`{'timestamp': ..., 'measurements': ...}` (`save_measurements`). -/
structure MeasurementRecord where
  timestamp : ℕ
  measurements : Measurements

/-- The mutable attributes of `AITailorSystem` that the pipeline reads or
writes, plus the JSON files on disk (file name to dumped record list;
`none` means the file does not exist). -/
structure SystemState where
  pixel_to_cm_ratio : ℚ
  calibrated : Bool
  measurements_data : String → Option (List MeasurementRecord)
  current_measurements : Option Measurements
  files : String → Option (List MeasurementRecord)

/-- `AITailorSystem.__init__`: ratio 0, not calibrated, empty history dict,
no current measurements; the disk starts empty. -/
def initState : SystemState where
  pixel_to_cm_ratio := 0
  calibrated := false
  measurements_data := fun _ => none
  current_measurements := none
  files := fun _ => none

/-- `AITailorSystem.calibrate_system`: `face_width_pixels = w / 8`,
`pixel_to_cm_ratio = 15.5 / face_width_pixels`, `calibrated = True`.
The frame width comes from `frame.shape`, hence a natural number.  A zero
width makes the division raise `ZeroDivisionError` before any attribute is
assigned; there is no input-validation branch in the source. -/
def calibrate_system (frame_width : ℕ) (s : SystemState) :
    SystemState × Except PyError Bool :=
  let face_width_pixels : ℚ := (frame_width : ℚ) / 8
  let average_face_width_cm : ℚ := 15.5
  if face_width_pixels = 0 then
    (s, Except.error PyError.zeroDivisionError)
  else
    ({ s with
        pixel_to_cm_ratio := average_face_width_cm / face_width_pixels
        calibrated := true },
     Except.ok true)

/-- `AITailorSystem.calculate_distance`: Euclidean distance via `np.sqrt`. -/
noncomputable def calculate_distance (point1 point2 : ℚ × ℚ) : ℝ :=
  Real.sqrt (((point1.1 - point2.1) ^ 2 + (point1.2 - point2.2) ^ 2 : ℚ) : ℝ)

/-- Python `round(x, 1)`: round to one decimal place. -/
noncomputable def round1 (x : ℝ) : ℝ := ((round (x * 10) : ℤ) : ℝ) / 10

/-- `AITailorSystem.extract_measurements`.  Mirrors the source: the early
`return None` when `pixel_to_cm_ratio == 0`, then the `try` block reading
landmarks 11 (left_shoulder), 12 (right_shoulder), 15 (left_wrist),
23 (left_hip), 27 (left_ankle) and 24 (right_hip) in first-use order.  Any
failing subscript raises, the `except` returns `None` and the incrementally
built dict is discarded, so the whole block is the `none` branch; on success
the six entries appear in the source's insertion order. -/
noncomputable def extract_measurements (landmarks : PoseLandmarks)
    (w h : ℕ) (pixel_to_cm_ratio : ℚ) : Option Measurements :=
  if pixel_to_cm_ratio = 0 then none
  else
    match landmarks 11, landmarks 12, landmarks 15,
          landmarks 23, landmarks 27, landmarks 24 with
    | some lsLm, some rsLm, some lwLm, some lhLm, some laLm, some rhLm =>
      let left_shoulder : ℚ × ℚ := (lsLm.x * w, lsLm.y * h)
      let right_shoulder : ℚ × ℚ := (rsLm.x * w, rsLm.y * h)
      let shoulder_width := calculate_distance left_shoulder right_shoulder
      let left_shoulder_pos : ℚ × ℚ := (lsLm.x * w, lsLm.y * h)
      let left_wrist_pos : ℚ × ℚ := (lwLm.x * w, lwLm.y * h)
      let arm_length := calculate_distance left_shoulder_pos left_wrist_pos
      let left_hip : ℚ × ℚ := (lhLm.x * w, lhLm.y * h)
      let torso_length := calculate_distance left_shoulder_pos left_hip
      let left_ankle : ℚ × ℚ := (laLm.x * w, laLm.y * h)
      let inseam := calculate_distance left_hip left_ankle
      let right_hip : ℚ × ℚ := (rhLm.x * w, rhLm.y * h)
      let hip_width := calculate_distance left_hip right_hip
      let leg_length := calculate_distance left_hip left_ankle
      some [("Shoulder Width", round1 (shoulder_width * pixel_to_cm_ratio)),
            ("Left Arm Length", round1 (arm_length * pixel_to_cm_ratio)),
            ("Torso Length", round1 (torso_length * pixel_to_cm_ratio)),
            ("Inseam", round1 (inseam * pixel_to_cm_ratio)),
            ("Hip Width", round1 (hip_width * pixel_to_cm_ratio)),
            ("Leg Length", round1 (leg_length * pixel_to_cm_ratio))]
    | _, _, _, _, _, _ => none

/-- `AITailorSystem.process_frame`: auto-calibrates when `calibrated` is
false (a raise there propagates), then runs the detector (its output is the
`pose_landmarks` argument).  When a body is found, `current_measurements`
is assigned the result of `extract_measurements` unconditionally, and
`(True, measurements)` is returned; otherwise `(False, None)` is returned
with no mutation of `current_measurements`. -/
noncomputable def process_frame (frame_w frame_h : ℕ)
    (pose_landmarks : Option PoseLandmarks) (s : SystemState) :
    SystemState × Except PyError (Bool × Option Measurements) :=
  match (if s.calibrated then (s, Except.ok true) else calibrate_system frame_w s) with
  | (s1, Except.error e) => (s1, Except.error e)
  | (s1, Except.ok _) =>
    match pose_landmarks with
    | some landmarks =>
      let measurements :=
        extract_measurements landmarks frame_w frame_h s1.pixel_to_cm_ratio
      ({ s1 with current_measurements := measurements },
       Except.ok (true, measurements))
    | none => (s1, Except.ok (false, none))

/-- `AITailorSystem.save_measurements`: ensure the user's history exists,
append `{'timestamp': now, 'measurements': measurements}` in memory, then
dump the user's whole history to `measurements_<user>.json`.  `write_ok`
models whether the file write succeeds; on failure the `IOError` escapes
after the in-memory append already happened. -/
def save_measurements (now : ℕ) (user_name : String)
    (measurements : Measurements) (write_ok : Bool) (s : SystemState) :
    SystemState × Except PyError Bool :=
  let measurement_record : MeasurementRecord :=
    { timestamp := now, measurements := measurements }
  let new_history := (s.measurements_data user_name).getD [] ++ [measurement_record]
  let s1 : SystemState :=
    { s with measurements_data :=
        fun u => if u = user_name then some new_history else s.measurements_data u }
  let filename := "measurements_" ++ user_name ++ ".json"
  if write_ok then
    ({ s1 with files :=
        fun f => if f = filename then some new_history else s1.files f },
     Except.ok true)
  else
    (s1, Except.error PyError.ioError)

/-- The `/save` Flask route: passes `data['user']` and
`data['measurements']` to `save_measurements` verbatim — no default-name
substitution happens in the back end. -/
def save (user : String) (measurements : Measurements) (now : ℕ)
    (write_ok : Bool) (s : SystemState) : SystemState × Except PyError Bool :=
  save_measurements now user measurements write_ok s

/-! ### Concrete inputs used by witnesses and counterexamples -/

/-- A detector output in which every landmark sits at the frame centre. -/
def lmAllMid : PoseLandmarks := fun _ => some ⟨1/2, 1/2⟩

/-- A detector output missing landmark 15 (`left_wrist`) only. -/
def lmNoWrist : PoseLandmarks := fun i => if i = 15 then none else some ⟨1/2, 1/2⟩

/-- A detector output carrying exactly the six landmarks the measurement
derivations read, and nothing else. -/
def lmOnlySix : PoseLandmarks := fun i =>
  if i = 11 ∨ i = 12 ∨ i = 15 ∨ i = 23 ∨ i = 24 ∨ i = 27 then
    some ⟨1/2, 1/2⟩
  else none

/-- The measurement dict produced when all landmarks coincide. -/
def zeroMeasurements : Measurements :=
  [("Shoulder Width", 0), ("Left Arm Length", 0), ("Torso Length", 0),
   ("Inseam", 0), ("Hip Width", 0), ("Leg Length", 0)]

lemma extract_measurements_lmAllMid (w h : ℕ) (r : ℚ) (hr : r ≠ 0) :
    extract_measurements lmAllMid w h r = some zeroMeasurements := by
  simp [extract_measurements, lmAllMid, hr, calculate_distance, round1,
    zeroMeasurements]

lemma extract_measurements_lmNoWrist (w h : ℕ) (r : ℚ) :
    extract_measurements lmNoWrist w h r = none := by
  by_cases hr : r = 0 <;> simp [extract_measurements, lmNoWrist, hr]

/-! ### C4 and C5: the Calibration Engine -/

/-- C4: for every frame of positive width `w`, `calibrate_system` sets the
scale factor to exactly `15.5 / (w / 8)` and sets `calibrated`; for width
800 the scale factor is `0.155` cm per pixel; recalibrating with the same
width recomputes the same state (idempotent overwrite). -/
theorem calibrate_formula_idempotent (w : ℕ) (s : SystemState) (hw : 0 < w) :
    (calibrate_system w s).1.pixel_to_cm_ratio = 15.5 / ((w : ℚ) / 8) ∧
    (calibrate_system w s).1.calibrated = true ∧
    (calibrate_system 800 s).1.pixel_to_cm_ratio = 0.155 ∧
    calibrate_system w ((calibrate_system w s).1)
      = ((calibrate_system w s).1, Except.ok true) := by
  have hw8 : ((w : ℚ) / 8) ≠ 0 := by
    have hw0 : (0 : ℚ) < (w : ℚ) := by exact_mod_cast hw
    positivity
  refine ⟨by simp [calibrate_system, hw8], by simp [calibrate_system, hw8],
    by norm_num [calibrate_system], by simp [calibrate_system, hw8]⟩

/-- Witness for C4 at frame width 800 from the initial state. -/
theorem calibrate_formula_idempotent_witness :
    (calibrate_system 800 initState).1.pixel_to_cm_ratio
        = 15.5 / (((800 : ℕ) : ℚ) / 8) ∧
    (calibrate_system 800 initState).1.calibrated = true ∧
    (calibrate_system 800 initState).1.pixel_to_cm_ratio = 0.155 ∧
    calibrate_system 800 ((calibrate_system 800 initState).1)
      = ((calibrate_system 800 initState).1, Except.ok true) :=
  calibrate_formula_idempotent 800 initState (by decide)

/-- C5: evaluated at the failing input, a frame of width 0 makes
`calibrate_system` raise `ZeroDivisionError`; there is no `InvalidInput`
failure path in the source, and the state survives only because the raise
precedes the attribute assignments. -/
theorem calibrate_zero_width_zero_division (s : SystemState) :
    calibrate_system 0 s = (s, Except.error PyError.zeroDivisionError) := by
  simp [calibrate_system]

/-! ### C2, C6 and C9: the Measurement Engine -/

/-- C2: whenever `extract_measurements` returns a dict at all, its keys are
exactly the six measurement names, in insertion order — it never returns a
proper subset of the six. -/
theorem extract_all_six_or_none (lm : PoseLandmarks) (w h : ℕ) (r : ℚ)
    (m : Measurements) (hm : extract_measurements lm w h r = some m) :
    m.map Prod.fst = ["Shoulder Width", "Left Arm Length", "Torso Length",
      "Inseam", "Hip Width", "Leg Length"] := by
  unfold extract_measurements at hm
  split at hm
  · exact absurd hm (by simp)
  · split at hm
    · injection hm with hm
      subst hm
      rfl
    · exact absurd hm (by simp)

/-- Witness for C2: a concrete successful extraction carries the six keys. -/
theorem extract_all_six_or_none_witness :
    zeroMeasurements.map Prod.fst = ["Shoulder Width", "Left Arm Length",
      "Torso Length", "Inseam", "Hip Width", "Leg Length"] :=
  extract_all_six_or_none lmAllMid 1 1 1 zeroMeasurements
    (extract_measurements_lmAllMid 1 1 1 one_ne_zero)

/-- C6: whenever `extract_measurements` succeeds, the "Leg Length" entry and
the "Inseam" entry hold the same value — both are the left_hip/left_ankle
distance scaled and rounded. -/
theorem leg_length_eq_inseam (lm : PoseLandmarks) (w h : ℕ) (r : ℚ)
    (m : Measurements) (hm : extract_measurements lm w h r = some m) :
    List.lookup "Leg Length" m = List.lookup "Inseam" m := by
  unfold extract_measurements at hm
  split at hm
  · exact absurd hm (by simp)
  · split at hm
    · injection hm with hm
      subst hm
      rfl
    · exact absurd hm (by simp)

/-- Witness for C6 on a concrete successful extraction. -/
theorem leg_length_eq_inseam_witness :
    List.lookup "Leg Length" zeroMeasurements
      = List.lookup "Inseam" zeroMeasurements :=
  leg_length_eq_inseam lmAllMid 1 1 1 zeroMeasurements
    (extract_measurements_lmAllMid 1 1 1 one_ne_zero)

/-- C9: with a nonzero scale factor, if landmarks 11, 12, 15, 23, 24 and 27
(left/right shoulder, left wrist, left/right hip, left ankle) are present
then `extract_measurements` succeeds, and its result is unchanged under any
reassignment of every other landmark — only those six points are read. -/
theorem extract_only_reads_six_landmarks (lm lm' : PoseLandmarks)
    (w h : ℕ) (r : ℚ) (hr : r ≠ 0)
    (h11 : (lm 11).isSome = true) (h12 : (lm 12).isSome = true)
    (h15 : (lm 15).isSome = true) (h23 : (lm 23).isSome = true)
    (h24 : (lm 24).isSome = true) (h27 : (lm 27).isSome = true)
    (e11 : lm' 11 = lm 11) (e12 : lm' 12 = lm 12) (e15 : lm' 15 = lm 15)
    (e23 : lm' 23 = lm 23) (e24 : lm' 24 = lm 24) (e27 : lm' 27 = lm 27) :
    (extract_measurements lm w h r).isSome = true ∧
    extract_measurements lm' w h r = extract_measurements lm w h r := by
  obtain ⟨a11, ha11⟩ := Option.isSome_iff_exists.mp h11
  obtain ⟨a12, ha12⟩ := Option.isSome_iff_exists.mp h12
  obtain ⟨a15, ha15⟩ := Option.isSome_iff_exists.mp h15
  obtain ⟨a23, ha23⟩ := Option.isSome_iff_exists.mp h23
  obtain ⟨a24, ha24⟩ := Option.isSome_iff_exists.mp h24
  obtain ⟨a27, ha27⟩ := Option.isSome_iff_exists.mp h27
  constructor
  · simp [extract_measurements, hr, ha11, ha12, ha15, ha23, ha24, ha27]
  · simp [extract_measurements, hr, e11, e12, e15, e23, e24, e27,
      ha11, ha12, ha15, ha23, ha24, ha27]

/-- Witness for C9: dropping every landmark other than the six read ones
changes nothing about the result, which exists. -/
theorem extract_only_reads_six_landmarks_witness :
    (extract_measurements lmAllMid 1 1 1).isSome = true ∧
    extract_measurements lmOnlySix 1 1 1 = extract_measurements lmAllMid 1 1 1 :=
  extract_only_reads_six_landmarks lmAllMid lmOnlySix 1 1 1 one_ne_zero
    rfl rfl rfl rfl rfl rfl rfl rfl rfl rfl rfl rfl

/-! ### C1 and C3: measurement requests through `process_frame` -/

/-- C1 counterexample: a measurement request (`process_frame`) on the
uncalibrated initial state does not fail with NotCalibrated — it calibrates
as a side effect, leaving `calibrated = true`, and returns a successful
measurement set. -/
theorem uncalibrated_measure_succeeds_cex :
    (process_frame 800 600 (some lmAllMid) initState).1.calibrated = true ∧
    (process_frame 800 600 (some lmAllMid) initState).2
      = Except.ok (true, some zeroMeasurements) := by
  have hr : ((31 / 200 : ℚ)) ≠ 0 := by norm_num
  constructor <;>
    norm_num [process_frame, initState, calibrate_system,
      extract_measurements_lmAllMid _ _ _ hr]

/-- C1 amended: `extract_measurements` itself refuses to run with the zero
scale factor of an uncalibrated state, returning no measurements without
touching anything (the NotCalibrated guard); but `process_frame` calibrates
first whenever `calibrated` is false, so a measurement request on an
uncalibrated system with a positive-width frame performs calibration as a
side effect and ends with `calibrated = true` instead of failing. -/
theorem uncalibrated_guard_and_autocalibrate (lm : PoseLandmarks)
    (w h : ℕ) (det : Option PoseLandmarks) (s : SystemState)
    (hcal : s.calibrated = false) (hw : 0 < w) :
    extract_measurements lm w h 0 = none ∧
    (process_frame w h det s).1.calibrated = true := by
  have hw8 : ((w : ℚ) / 8) ≠ 0 := by
    have hw0 : (0 : ℚ) < (w : ℚ) := by exact_mod_cast hw
    positivity
  constructor
  · simp [extract_measurements]
  · cases det <;> simp [process_frame, hcal, calibrate_system, hw8]

/-- Witness for the amended C1 on the initial state and a 800×600 frame. -/
theorem uncalibrated_guard_and_autocalibrate_witness :
    extract_measurements lmAllMid 800 600 0 = none ∧
    (process_frame 800 600 none initState).1.calibrated = true :=
  uncalibrated_guard_and_autocalibrate lmAllMid 800 600 none initState rfl
    (by decide)

/-- A calibrated state that already holds a current measurement set. -/
noncomputable def statePrev : SystemState :=
  { initState with
      pixel_to_cm_ratio := 1
      calibrated := true
      current_measurements := some zeroMeasurements }

/-- C3 counterexample: the detector finds a body but `left_wrist` is
missing, so the measurement fails — and `process_frame` overwrites the
previously stored current measurement with the failure value `None` instead
of leaving it unchanged. -/
theorem failed_measure_overwrites_current_cex :
    (process_frame 800 600 (some lmNoWrist) statePrev).1.current_measurements
        = none ∧
    statePrev.current_measurements ≠ none := by
  constructor
  · simp [process_frame, statePrev, initState, extract_measurements_lmNoWrist]
  · simp [statePrev, initState]

/-- C3 amended: when the detector reports no body, the current measurement
is left unchanged; but whenever a body is detected, `process_frame`
unconditionally overwrites `current_measurements` with the result of
`extract_measurements` — including `none` on measurement failure, so a
failed measurement after a successful detection loses the previous value. -/
theorem current_measurement_update (w h : ℕ) (s t : SystemState)
    (lm : PoseLandmarks) (hcal : t.calibrated = true)
    (hfail : extract_measurements lm w h t.pixel_to_cm_ratio = none) :
    (process_frame w h none s).1.current_measurements
        = s.current_measurements ∧
    (process_frame w h (some lm) t).1.current_measurements = none := by
  constructor
  · by_cases hc : s.calibrated
    · simp [process_frame, hc]
    · by_cases h8 : ((w : ℚ) / 8) = 0 <;>
        simp [process_frame, hc, calibrate_system, h8]
  · simp [process_frame, hcal, hfail]

/-- Witness for the amended C3 at concrete states and frames. -/
theorem current_measurement_update_witness :
    (process_frame 800 600 none initState).1.current_measurements
        = initState.current_measurements ∧
    (process_frame 800 600 (some lmNoWrist) statePrev).1.current_measurements
        = none :=
  current_measurement_update 800 600 initState statePrev lmNoWrist rfl
    (extract_measurements_lmNoWrist 800 600 _)

/-! ### C7, C8 and C10: the Measurement Session Store -/

/-- C7: from an empty history for `u`, saving `M1` then `M2` (with the wall
clock advancing) leaves the in-memory history `[record M1, record M2]`,
persists exactly that two-record list to the user's file in order with
non-decreasing timestamps, and the persisted history equals the in-memory
one record-for-record (whole-history rewrite). -/
theorem save_twice_roundtrip (u : String) (M1 M2 : Measurements)
    (t1 t2 : ℕ) (s : SystemState)
    (hu : s.measurements_data u = none) (ht : t1 ≤ t2) :
    (save_measurements t2 u M2 true
        (save_measurements t1 u M1 true s).1).1.measurements_data u
      = some [⟨t1, M1⟩, ⟨t2, M2⟩] ∧
    (save_measurements t2 u M2 true
        (save_measurements t1 u M1 true s).1).1.files
        ("measurements_" ++ u ++ ".json")
      = some [⟨t1, M1⟩, ⟨t2, M2⟩] ∧
    List.Chain' (fun a b : MeasurementRecord => a.timestamp ≤ b.timestamp)
      [⟨t1, M1⟩, ⟨t2, M2⟩] ∧
    (save_measurements t2 u M2 true
        (save_measurements t1 u M1 true s).1).1.files
        ("measurements_" ++ u ++ ".json")
      = (save_measurements t2 u M2 true
          (save_measurements t1 u M1 true s).1).1.measurements_data u := by
  refine ⟨?_, ?_, ?_, ?_⟩ <;> simp [save_measurements, hu, ht]

/-- Witness for C7: two saves for "Alice" from the initial state. -/
theorem save_twice_roundtrip_witness :
    (save_measurements 2 "Alice" [("Shoulder Width", 11)] true
        (save_measurements 1 "Alice" [("Shoulder Width", 10)] true
          initState).1).1.measurements_data "Alice"
      = some [⟨1, [("Shoulder Width", 10)]⟩, ⟨2, [("Shoulder Width", 11)]⟩] ∧
    (save_measurements 2 "Alice" [("Shoulder Width", 11)] true
        (save_measurements 1 "Alice" [("Shoulder Width", 10)] true
          initState).1).1.files ("measurements_" ++ "Alice" ++ ".json")
      = some [⟨1, [("Shoulder Width", 10)]⟩, ⟨2, [("Shoulder Width", 11)]⟩] ∧
    List.Chain' (fun a b : MeasurementRecord => a.timestamp ≤ b.timestamp)
      [⟨1, [("Shoulder Width", 10)]⟩, ⟨2, [("Shoulder Width", 11)]⟩] ∧
    (save_measurements 2 "Alice" [("Shoulder Width", 11)] true
        (save_measurements 1 "Alice" [("Shoulder Width", 10)] true
          initState).1).1.files ("measurements_" ++ "Alice" ++ ".json")
      = (save_measurements 2 "Alice" [("Shoulder Width", 11)] true
          (save_measurements 1 "Alice" [("Shoulder Width", 10)] true
            initState).1).1.measurements_data "Alice" :=
  save_twice_roundtrip "Alice" [("Shoulder Width", 10)]
    [("Shoulder Width", 11)] 1 2 initState rfl (by decide)

/-- C8 counterexample: the core persists a save with the empty user name
under the empty-string key and the file `measurements_.json`; the "Guest"
history and file stay absent — no Guest substitution happens at the core. -/
theorem save_empty_user_not_guest_cex :
    (save "" [] 0 true initState).1.measurements_data "Guest" = none ∧
    (save "" [] 0 true initState).1.measurements_data "" = some [⟨0, []⟩] ∧
    (save "" [] 0 true initState).1.files "measurements_.json"
        = some [⟨0, []⟩] ∧
    (save "" [] 0 true initState).1.files "measurements_Guest.json" = none := by
  refine ⟨?_, ?_, ?_, ?_⟩ <;> simp [save, save_measurements, initState]

/-- C8 amended: the back end performs no "Guest" default — the `/save` route
hands the request's user name to `save_measurements` verbatim, so an empty
user name is persisted under the empty-string key while the "Guest" history
is untouched; the default to "Guest" exists only in the browser front end. -/
theorem save_no_guest_substitution (M : Measurements) (t : ℕ)
    (s : SystemState) (h : s.measurements_data "" = none) :
    (save "" M t true s).1.measurements_data "" = some [⟨t, M⟩] ∧
    (save "" M t true s).1.measurements_data "Guest"
        = s.measurements_data "Guest" ∧
    (save "" M t true s).1.files "measurements_.json" = some [⟨t, M⟩] := by
  refine ⟨?_, ?_, ?_⟩ <;> simp [save, save_measurements, h]

/-- Witness for the amended C8 from the initial state. -/
theorem save_no_guest_substitution_witness :
    (save "" [] 0 true initState).1.measurements_data "" = some [⟨0, []⟩] ∧
    (save "" [] 0 true initState).1.measurements_data "Guest"
        = initState.measurements_data "Guest" ∧
    (save "" [] 0 true initState).1.files "measurements_.json"
        = some [⟨0, []⟩] :=
  save_no_guest_substitution [] 0 initState rfl

/-- C10: every save appends exactly one record at the end of the saved
user's in-memory history, leaves every other user's history untouched,
performs the in-memory append even when the subsequent file write fails,
and changes no other session state. -/
theorem save_appends_exactly_one (t : ℕ) (u : String) (m : Measurements)
    (ok : Bool) (s : SystemState) :
    (save_measurements t u m ok s).1.measurements_data u
        = some ((s.measurements_data u).getD [] ++ [⟨t, m⟩]) ∧
    (∀ v, v ≠ u → (save_measurements t u m ok s).1.measurements_data v
        = s.measurements_data v) ∧
    (save_measurements t u m false s).1.measurements_data u
        = some ((s.measurements_data u).getD [] ++ [⟨t, m⟩]) ∧
    (save_measurements t u m ok s).1.calibrated = s.calibrated ∧
    (save_measurements t u m ok s).1.pixel_to_cm_ratio
        = s.pixel_to_cm_ratio ∧
    (save_measurements t u m ok s).1.current_measurements
        = s.current_measurements := by
  cases ok <;>
    exact ⟨by simp [save_measurements],
      fun v hv => by simp [save_measurements, hv],
      by simp [save_measurements], by simp [save_measurements],
      by simp [save_measurements], by simp [save_measurements]⟩

/-- Witness for C10: a concrete save touches "Alice" and not "Bob". -/
theorem save_appends_exactly_one_witness :
    (save_measurements 0 "Alice" [] true initState).1.measurements_data "Alice"
        = some ((initState.measurements_data "Alice").getD [] ++ [⟨0, []⟩]) ∧
    (save_measurements 0 "Alice" [] true initState).1.measurements_data "Bob"
        = initState.measurements_data "Bob" :=
  ⟨(save_appends_exactly_one 0 "Alice" [] true initState).1,
   (save_appends_exactly_one 0 "Alice" [] true initState).2.1 "Bob"
     (by decide)⟩

end AITailor
